import Mathlib

/-!
Shallow embedding of `src/locust/locustfile.py` (query-performance-demo load test).

The file defines seven HttpUser classes: four named profiles
(SlowQueryUser, FastQueryUser, MixedUser, HealthCheckUser) and three
Scenario classes.  A default run spawns every non-abstract HttpUser class
in the file — all seven — while naming classes on the command line
restricts the run to those named.  Each catch-response task body inspects
the HTTP status and a JSON numeric field and marks the request as a
failure with a diagnostic message; plain tasks (the MixedUser and Scenario
bodies) issue a request under a display name without any custom
classification.
-/

/-- Verdict of classifying one response: success, or failure with a
diagnostic message (mirrors locust's `response.failure(msg)` versus letting
the block exit without marking). -/
inductive ClassificationResult where
  | success : ClassificationResult
  | failure : String → ClassificationResult
deriving DecidableEq, Repr

/-- Decoded JSON fields the task bodies look at: `queryTimeMs` (slow and
fast endpoints) and `responseTimeMs` (health endpoint).  A `none` field
models a JSON object that lacks the key, so that `data.get(key, 0)` is
`Option.getD · 0` and `data[key]` is a fallible direct lookup. -/
structure JsonFields where
  queryTimeMs : Option Int
  responseTimeMs : Option Int
deriving DecidableEq, Repr

/-- Raw response body: either undecodable (where `response.json()` raises
`JSONDecodeError`) or a decoded JSON object with optional numeric fields. -/
inductive Body where
  | malformed : Body
  | json : JsonFields → Body
deriving DecidableEq, Repr

/-- Embedding of `response.json()`: `none` on a malformed body. -/
def decodeBody : Body → Option JsonFields
  | Body.malformed => none
  | Body.json f => some f

/-- One HTTP response as the task bodies see it: `status = 0` is locust's
encoding of a transport failure (no response received), any other value is
the HTTP status code. -/
structure HttpResponse where
  status : Nat
  body : Body
deriving DecidableEq, Repr

/-- What a task body hands to the engine: a display-name bucket and the
verdict for this request.  An `Except.error` at this layer models an
exception escaping the task body uncaught. -/
structure TaskReport where
  name : String
  result : ClassificationResult
deriving DecidableEq, Repr

/-- Response classifier for the slow endpoint, lines 53-60 of
`locustfile.py`: at status 200 compare `data.get("queryTimeMs", 0)` with
5000 and on breach build the message from the direct lookup
`data["queryTimeMs"]` (the `Except.error` branch is that lookup's KeyError);
status 0 reports pool exhaustion; any other status reports the code. -/
def classifySlow (status : Nat) (queryTimeMs : Option Int) :
    Except String ClassificationResult :=
  if status = 200 then
    if queryTimeMs.getD 0 > 5000 then
      match queryTimeMs with
      | some v =>
          Except.ok (ClassificationResult.failure
            ("Query too slow: " ++ toString v ++ "ms"))
      | none => Except.error "KeyError queryTimeMs"
    else Except.ok ClassificationResult.success
  else if status = 0 then
    Except.ok (ClassificationResult.failure "Connection timeout - pool exhausted")
  else
    Except.ok (ClassificationResult.failure ("HTTP " ++ toString status))

/-- Response classifier for the fast endpoint, lines 83-88: threshold
100 ms at status 200; every non-200 status (status 0 included, there is no
dedicated branch for it) reports the literal status code. -/
def classifyFast (status : Nat) (queryTimeMs : Option Int) :
    Except String ClassificationResult :=
  if status = 200 then
    if queryTimeMs.getD 0 > 100 then
      match queryTimeMs with
      | some v =>
          Except.ok (ClassificationResult.failure
            ("Unexpectedly slow: " ++ toString v ++ "ms"))
      | none => Except.error "KeyError queryTimeMs"
    else Except.ok ClassificationResult.success
  else
    Except.ok (ClassificationResult.failure ("HTTP " ++ toString status))

/-- Response classifier for the health endpoint, lines 130-135: threshold
1000 ms on `responseTimeMs` at status 200; every non-200 status gets the
fixed message, with no status code and no dedicated status-0 branch. -/
def classifyHealth (status : Nat) (responseTimeMs : Option Int) :
    Except String ClassificationResult :=
  if status = 200 then
    if responseTimeMs.getD 0 > 1000 then
      match responseTimeMs with
      | some v =>
          Except.ok (ClassificationResult.failure
            ("Health check slow: " ++ toString v ++ "ms - system degraded"))
      | none => Except.error "KeyError responseTimeMs"
    else Except.ok ClassificationResult.success
  else
    Except.ok (ClassificationResult.failure "Health check failed - system may be down")

/-- Task body `SlowQueryUser.slow_query` (lines 46-60): request to
`/api/distribution-groups/slow` reported under display name `/slow`;
`response.json()` is only invoked when the status is 200. -/
def slow_query (resp : HttpResponse) : Except String TaskReport :=
  if resp.status = 200 then
    match decodeBody resp.body with
    | none => Except.error "JSONDecodeError"
    | some f =>
        (classifySlow resp.status f.queryTimeMs).map fun c =>
          TaskReport.mk "/slow" c
  else
    (classifySlow resp.status none).map fun c => TaskReport.mk "/slow" c

/-- Task body `FastQueryUser.fast_query` (lines 76-88): request to
`/api/distribution-groups/fast` reported under display name `/fast`. -/
def fast_query (resp : HttpResponse) : Except String TaskReport :=
  if resp.status = 200 then
    match decodeBody resp.body with
    | none => Except.error "JSONDecodeError"
    | some f =>
        (classifyFast resp.status f.queryTimeMs).map fun c =>
          TaskReport.mk "/fast" c
  else
    (classifyFast resp.status none).map fun c => TaskReport.mk "/fast" c

/-- Task body `HealthCheckUser.health_check` (lines 123-135): request to
`/api/distribution-groups/health` reported under display name `/health`. -/
def health_check (resp : HttpResponse) : Except String TaskReport :=
  if resp.status = 200 then
    match decodeBody resp.body with
    | none => Except.error "JSONDecodeError"
    | some f =>
        (classifyHealth resp.status f.responseTimeMs).map fun c =>
          TaskReport.mk "/health" c
  else
    (classifyHealth resp.status none).map fun c => TaskReport.mk "/health" c

/-- One task of a user profile: its selection weight (`@task(n)`, default 1),
the fixed request path, the display name the verdict is reported under, and
`classify = some body` when the task wraps the request in
`catch_response=True` and judges it itself; `classify = none` when the task
issues a plain `self.client.get` and leaves the verdict to the engine's
status-based default. -/
structure TaskSpec where
  taskWeight : Nat
  path : String
  displayName : String
  classify : Option (HttpResponse → Except String TaskReport)

/-- One locust user class: population weight (`weight`, default 1), the
`between(min, max)` wait-time range in seconds, and the task list. -/
structure UserProfile where
  pname : String
  weight : Nat
  waitTimeMin : Rat
  waitTimeMax : Rat
  tasks : List TaskSpec

/-- Profile `SlowQueryUser` (lines 32-60): weight 1, wait `between(0.1, 0.5)`,
a single catch-response task on the slow endpoint. -/
def SlowQueryUser : UserProfile :=
  { pname := "SlowQueryUser", weight := 1,
    waitTimeMin := 1/10, waitTimeMax := 1/2,
    tasks := [⟨1, "/api/distribution-groups/slow", "/slow", some slow_query⟩] }

/-- Profile `FastQueryUser` (lines 63-88): weight 1, wait `between(0.1, 0.5)`,
a single catch-response task on the fast endpoint. -/
def FastQueryUser : UserProfile :=
  { pname := "FastQueryUser", weight := 1,
    waitTimeMin := 1/10, waitTimeMax := 1/2,
    tasks := [⟨1, "/api/distribution-groups/fast", "/fast", some fast_query⟩] }

/-- Profile `MixedUser` (lines 91-112): weight 3, wait `between(0.5, 2)`,
two plain tasks (`@task(2)` slow, `@task(8)` fast) that issue
`self.client.get` with a display name and no `catch_response` block. -/
def MixedUser : UserProfile :=
  { pname := "MixedUser", weight := 3,
    waitTimeMin := 1/2, waitTimeMax := 2,
    tasks := [⟨2, "/api/distribution-groups/slow", "/slow (mixed)", none⟩,
              ⟨8, "/api/distribution-groups/fast", "/fast (mixed)", none⟩] }

/-- Profile `HealthCheckUser` (lines 115-135): weight 1, wait `between(1, 3)`,
a single catch-response task on the health endpoint. -/
def HealthCheckUser : UserProfile :=
  { pname := "HealthCheckUser", weight := 1,
    waitTimeMin := 1, waitTimeMax := 3,
    tasks := [⟨1, "/api/distribution-groups/health", "/health", some health_check⟩] }

/-- Scenario class `ScenarioSlowOnly` (lines 142-155); the class declares
no `weight` attribute, so it carries locust's default population weight 1,
and the plain request's default display name is the path itself. -/
def ScenarioSlowOnly : UserProfile :=
  { pname := "ScenarioSlowOnly", weight := 1,
    waitTimeMin := 1/10, waitTimeMax := 1/2,
    tasks := [⟨1, "/api/distribution-groups/slow",
               "/api/distribution-groups/slow", none⟩] }

/-- Scenario class `ScenarioFastOnly` (lines 158-171); no `weight`
attribute, so locust's default population weight 1 applies. -/
def ScenarioFastOnly : UserProfile :=
  { pname := "ScenarioFastOnly", weight := 1,
    waitTimeMin := 1/10, waitTimeMax := 1/2,
    tasks := [⟨1, "/api/distribution-groups/fast",
               "/api/distribution-groups/fast", none⟩] }

/-- Scenario class `ScenarioMixed` (lines 174-191); no `weight` attribute,
so locust's default population weight 1 applies. -/
def ScenarioMixed : UserProfile :=
  { pname := "ScenarioMixed", weight := 1,
    waitTimeMin := 1/2, waitTimeMax := 1,
    tasks := [⟨2, "/api/distribution-groups/slow", "/slow", none⟩,
              ⟨8, "/api/distribution-groups/fast", "/fast", none⟩] }

/-- The User Profile Registry: every non-abstract HttpUser class of the
file, in definition order.  A default run (`locust -f locustfile.py`, the
usage in the file's own top docstring) spawns all seven; naming classes on
the command line restricts the run to those named, but does not make the
Scenario classes opt-in-only members of the registry. -/
def registry : List UserProfile :=
  [SlowQueryUser, FastQueryUser, MixedUser, HealthCheckUser,
   ScenarioSlowOnly, ScenarioFastOnly, ScenarioMixed]

/-- Weighted-random task selection as the spec describes it: a cumulative
walk over the weight list driven by one uniform draw `r` in
`[0, sum of weights)`, returning the index of the selected task. -/
def selectTask : List Nat → Nat → Nat
  | [], _ => 0
  | w :: ws, r => if r < w then 0 else selectTask ws (r - w) + 1

/-- Number of draws in `[0, sum of weights)` under which `selectTask`
picks task `i`; dividing by the sum gives the selection probability. -/
def selectCount (ws : List Nat) (i : Nat) : Nat :=
  ((List.range ws.sum).filter fun r => selectTask ws r = i).length

/-- Data-model invariant for a user profile: positive population weight,
positive task weights, sane non-negative wait-time range, non-empty task
set. -/
def profileWF (p : UserProfile) : Prop :=
  0 < p.weight ∧ (∀ t ∈ p.tasks, 0 < t.taskWeight) ∧
    0 ≤ p.waitTimeMin ∧ p.waitTimeMin ≤ p.waitTimeMax ∧ p.tasks ≠ []

/-- The string `sub` occurs contiguously inside `s`. -/
def containsStr (s sub : String) : Prop :=
  sub.data <:+: s.data

instance (s sub : String) : Decidable (containsStr s sub) :=
  List.decidableInfix sub.data s.data

/-- A diagnostic message that indicates connection/pool exhaustion, in the
vocabulary the slow task's own message uses. -/
def mentionsPoolExhaustion (s : String) : Prop :=
  containsStr s "pool" ∨ containsStr s "exhaust" ∨ containsStr s "onnection"

instance (s : String) : Decidable (mentionsPoolExhaustion s) := by
  unfold mentionsPoolExhaustion; infer_instance

example : classifySlow 200 (some 6000) =
    Except.ok (ClassificationResult.failure "Query too slow: 6000ms") := rfl

example : classifySlow 200 none = Except.ok ClassificationResult.success := rfl

example : classifyFast 0 none =
    Except.ok (ClassificationResult.failure "HTTP 0") := rfl

example : slow_query (HttpResponse.mk 200 Body.malformed) =
    Except.error "JSONDecodeError" := rfl

example : mentionsPoolExhaustion "Connection timeout - pool exhausted" := by decide

example : ¬ mentionsPoolExhaustion "HTTP 0" := by decide

example : selectCount [2, 8] 0 = 2 := by decide

example : selectCount [2, 8] 1 = 8 := by decide

lemma containsStr_append_mid (pre s post : String) :
    containsStr (pre ++ s ++ post) s := by
  show s.data <:+: (pre ++ s ++ post).data
  rw [String.data_append, String.data_append]
  exact List.infix_append pre.data s.data post.data

lemma containsStr_append_left (pre s : String) : containsStr (pre ++ s) s := by
  have h := containsStr_append_mid pre s ""
  simpa using h

lemma classifySlow_success_iff (status : Nat) (qt : Option Int) :
    classifySlow status qt = Except.ok ClassificationResult.success ↔
      status = 200 ∧ qt.getD 0 ≤ 5000 := by
  unfold classifySlow
  rcases qt with _ | v <;> split_ifs with h1 h2 <;> simp_all

lemma classifyFast_success_iff (status : Nat) (qt : Option Int) :
    classifyFast status qt = Except.ok ClassificationResult.success ↔
      status = 200 ∧ qt.getD 0 ≤ 100 := by
  unfold classifyFast
  rcases qt with _ | v <;> split_ifs with h1 h2 <;> simp_all

lemma classifyHealth_success_iff (status : Nat) (rt : Option Int) :
    classifyHealth status rt = Except.ok ClassificationResult.success ↔
      status = 200 ∧ rt.getD 0 ≤ 1000 := by
  unfold classifyHealth
  rcases rt with _ | v <;> split_ifs with h1 h2 <;> simp_all

lemma exceptMap_ok {α β : Type} (f : α → β) (a : α) :
    (Except.ok a : Except String α).map f = Except.ok (f a) := rfl

lemma classifySlow_total (status : Nat) (qt : Option Int) :
    ∃ c, classifySlow status qt = Except.ok c := by
  unfold classifySlow
  rcases qt with _ | v <;> split_ifs with h1 h2 <;> simp_all

lemma classifyFast_total (status : Nat) (qt : Option Int) :
    ∃ c, classifyFast status qt = Except.ok c := by
  unfold classifyFast
  rcases qt with _ | v <;> split_ifs with h1 h2 <;> simp_all

lemma classifyHealth_total (status : Nat) (rt : Option Int) :
    ∃ c, classifyHealth status rt = Except.ok c := by
  unfold classifyHealth
  rcases rt with _ | v <;> split_ifs with h1 h2 <;> simp_all

/-- C1: for the slow endpoint the classifier returns success exactly when the
status is 200 and the measured query time (0 when the field is absent) is at
most 5000 ms; at status 200 with a measured time above 5000 ms (for example
6000) it returns failure with a message containing the literal measured
value, and at any non-200, non-zero status it returns failure with a message
reporting the status code. -/
theorem C1_slow_classifier :
    (∀ (status : Nat) (qt : Option Int),
      classifySlow status qt = Except.ok ClassificationResult.success ↔
        status = 200 ∧ qt.getD 0 ≤ 5000) ∧
    (∀ v : Int, v > 5000 →
      classifySlow 200 (some v) =
        Except.ok (ClassificationResult.failure
          ("Query too slow: " ++ toString v ++ "ms")) ∧
      containsStr ("Query too slow: " ++ toString v ++ "ms") (toString v)) ∧
    (∀ (status : Nat) (qt : Option Int), status ≠ 200 → status ≠ 0 →
      classifySlow status qt =
        Except.ok (ClassificationResult.failure ("HTTP " ++ toString status)) ∧
      containsStr ("HTTP " ++ toString status) (toString status)) := by
  refine ⟨classifySlow_success_iff, ?_, ?_⟩
  · intro v hv
    exact ⟨by simp [classifySlow, hv], containsStr_append_mid _ _ _⟩
  · intro status qt h1 h2
    exact ⟨by simp [classifySlow, h1, h2], containsStr_append_left _ _⟩

theorem C1_slow_classifier_witness :
    (classifySlow 200 (some 6000) =
      Except.ok (ClassificationResult.failure
        ("Query too slow: " ++ toString (6000 : Int) ++ "ms")) ∧
     containsStr ("Query too slow: " ++ toString (6000 : Int) ++ "ms")
       (toString (6000 : Int))) ∧
    (classifySlow 500 none =
      Except.ok (ClassificationResult.failure ("HTTP " ++ toString (500 : Nat))) ∧
     containsStr ("HTTP " ++ toString (500 : Nat)) (toString (500 : Nat))) :=
  ⟨C1_slow_classifier.2.1 6000 (by decide),
   C1_slow_classifier.2.2 500 none (by decide) (by decide)⟩

/-- C3: for the fast endpoint the classifier returns success exactly when the
status is 200 and the measured query time (0 when absent) is at most 100 ms;
200 with 50 ms is success and 200 with 150 ms is failure; over-threshold
failures report the measured time and non-200 statuses report the status
code. -/
theorem C3_fast_classifier :
    (∀ (status : Nat) (qt : Option Int),
      classifyFast status qt = Except.ok ClassificationResult.success ↔
        status = 200 ∧ qt.getD 0 ≤ 100) ∧
    classifyFast 200 (some 50) = Except.ok ClassificationResult.success ∧
    classifyFast 200 (some 150) =
      Except.ok (ClassificationResult.failure "Unexpectedly slow: 150ms") ∧
    (∀ v : Int, v > 100 →
      classifyFast 200 (some v) =
        Except.ok (ClassificationResult.failure
          ("Unexpectedly slow: " ++ toString v ++ "ms")) ∧
      containsStr ("Unexpectedly slow: " ++ toString v ++ "ms") (toString v)) ∧
    (∀ (status : Nat) (qt : Option Int), status ≠ 200 →
      classifyFast status qt =
        Except.ok (ClassificationResult.failure ("HTTP " ++ toString status)) ∧
      containsStr ("HTTP " ++ toString status) (toString status)) := by
  refine ⟨classifyFast_success_iff, rfl, rfl, ?_, ?_⟩
  · intro v hv
    exact ⟨by simp [classifyFast, hv], containsStr_append_mid _ _ _⟩
  · intro status qt h1
    exact ⟨by simp [classifyFast, h1], containsStr_append_left _ _⟩

theorem C3_fast_classifier_witness :
    (classifyFast 200 (some 150) =
      Except.ok (ClassificationResult.failure
        ("Unexpectedly slow: " ++ toString (150 : Int) ++ "ms")) ∧
     containsStr ("Unexpectedly slow: " ++ toString (150 : Int) ++ "ms")
       (toString (150 : Int))) ∧
    (classifyFast 503 none =
      Except.ok (ClassificationResult.failure ("HTTP " ++ toString (503 : Nat))) ∧
     containsStr ("HTTP " ++ toString (503 : Nat)) (toString (503 : Nat))) :=
  ⟨C3_fast_classifier.2.2.2.1 150 (by decide),
   C3_fast_classifier.2.2.2.2 503 none (by decide)⟩

/-- C4: for the health endpoint the classifier returns success exactly when
the status is 200 and the measured response time (0 when absent) is at most
1000 ms; 200 with 500 ms is success, 200 with 1500 ms is failure with a
message containing "degraded", and every non-200 status is failure with a
message indicating the service is slow or down. -/
theorem C4_health_classifier :
    (∀ (status : Nat) (rt : Option Int),
      classifyHealth status rt = Except.ok ClassificationResult.success ↔
        status = 200 ∧ rt.getD 0 ≤ 1000) ∧
    classifyHealth 200 (some 500) = Except.ok ClassificationResult.success ∧
    (classifyHealth 200 (some 1500) =
      Except.ok (ClassificationResult.failure
        "Health check slow: 1500ms - system degraded") ∧
     containsStr "Health check slow: 1500ms - system degraded" "degraded") ∧
    (∀ (status : Nat) (rt : Option Int), status ≠ 200 →
      classifyHealth status rt =
        Except.ok (ClassificationResult.failure
          "Health check failed - system may be down") ∧
      containsStr "Health check failed - system may be down" "down") := by
  refine ⟨classifyHealth_success_iff, rfl, ⟨rfl, by decide⟩, ?_⟩
  intro status rt h1
  exact ⟨by simp [classifyHealth, h1], by decide⟩

theorem C4_health_classifier_witness :
    classifyHealth 503 none =
      Except.ok (ClassificationResult.failure
        "Health check failed - system may be down") ∧
    containsStr "Health check failed - system may be down" "down" :=
  C4_health_classifier.2.2.2 503 none (by decide)

/-- C5: at status 200 a body that lacks the expected numeric field defaults
that field to 0, which is under every threshold, so the classification is
success for all three endpoints (whatever the value of the other, irrelevant
field), and the full task bodies report success. -/
theorem C5_missing_field_defaults :
    classifySlow 200 none = Except.ok ClassificationResult.success ∧
    classifyFast 200 none = Except.ok ClassificationResult.success ∧
    classifyHealth 200 none = Except.ok ClassificationResult.success ∧
    (∀ rt : Option Int,
      slow_query ⟨200, Body.json ⟨none, rt⟩⟩ =
        Except.ok ⟨"/slow", ClassificationResult.success⟩) ∧
    (∀ rt : Option Int,
      fast_query ⟨200, Body.json ⟨none, rt⟩⟩ =
        Except.ok ⟨"/fast", ClassificationResult.success⟩) ∧
    (∀ qt : Option Int,
      health_check ⟨200, Body.json ⟨qt, none⟩⟩ =
        Except.ok ⟨"/health", ClassificationResult.success⟩) :=
  ⟨rfl, rfl, rfl, fun _ => rfl, fun _ => rfl, fun _ => rfl⟩

/-- C10: whenever the slow over-threshold branch is taken (status 200 and
`data.get("queryTimeMs", 0) > 5000`) the field must be present, so the
direct lookup `data["queryTimeMs"]` in the failure message succeeds; more
generally the slow classifier never reaches its KeyError branch on any
input. -/
theorem C10_direct_lookup_safe :
    (∀ qt : Option Int, qt.getD 0 > 5000 →
      ∃ v, qt = some v ∧
        classifySlow 200 qt =
          Except.ok (ClassificationResult.failure
            ("Query too slow: " ++ toString v ++ "ms"))) ∧
    (∀ (status : Nat) (qt : Option Int),
      ∃ c, classifySlow status qt = Except.ok c) := by
  refine ⟨?_, classifySlow_total⟩
  intro qt hqt
  rcases qt with _ | v
  · simp at hqt
  · exact ⟨v, rfl, by simp at hqt; simp [classifySlow, hqt]⟩

theorem C10_direct_lookup_safe_witness :
    ∃ v, (some (6000 : Int)) = some v ∧
      classifySlow 200 (some 6000) =
        Except.ok (ClassificationResult.failure
          ("Query too slow: " ++ toString v ++ "ms")) :=
  C10_direct_lookup_safe.1 (some 6000) (by decide)

/-- C2 as stated is false: at status 0 the fast task's message is the
literal "HTTP 0" and the health task's is "Health check failed - system may
be down"; neither mentions connection or pool exhaustion. -/
theorem C2_counterexample :
    classifyFast 0 none = Except.ok (ClassificationResult.failure "HTTP 0") ∧
    ¬ mentionsPoolExhaustion "HTTP 0" ∧
    classifyHealth 0 none =
      Except.ok (ClassificationResult.failure
        "Health check failed - system may be down") ∧
    ¬ mentionsPoolExhaustion "Health check failed - system may be down" :=
  ⟨rfl, by decide, rfl, by decide⟩

/-- C2 amended: classifying status 0 yields a failure for every endpoint
kind, but only the slow endpoint's message indicates connection/pool
exhaustion; the fast classifier reports "HTTP 0" and the health classifier
reports its generic system-down message. -/
theorem C2_status_zero :
    (∀ qt : Option Int,
      classifySlow 0 qt =
        Except.ok (ClassificationResult.failure
          "Connection timeout - pool exhausted")) ∧
    mentionsPoolExhaustion "Connection timeout - pool exhausted" ∧
    (∀ qt : Option Int,
      classifyFast 0 qt = Except.ok (ClassificationResult.failure "HTTP 0")) ∧
    (∀ rt : Option Int,
      classifyHealth 0 rt =
        Except.ok (ClassificationResult.failure
          "Health check failed - system may be down")) :=
  ⟨fun _ => rfl, by decide, fun _ => rfl, fun _ => rfl⟩

/-- C6 as stated is false: a status-200 response whose body cannot be
decoded makes each task body raise a JSON-decode error instead of treating
the fields as missing, while the same response with an empty decoded object
classifies as success. -/
theorem C6_counterexample :
    slow_query ⟨200, Body.malformed⟩ = Except.error "JSONDecodeError" ∧
    fast_query ⟨200, Body.malformed⟩ = Except.error "JSONDecodeError" ∧
    health_check ⟨200, Body.malformed⟩ = Except.error "JSONDecodeError" ∧
    slow_query ⟨200, Body.json ⟨none, none⟩⟩ =
      Except.ok ⟨"/slow", ClassificationResult.success⟩ :=
  ⟨rfl, rfl, rfl, rfl⟩

/-- C6 amended: an unreachable or failing endpoint (any non-200 status,
status 0 included) is always converted into a failure classification without
touching the body, and a response whose body decodes never raises; but a
status-200 response with a malformed body raises a JSON-decode error inside
the task body rather than defaulting the fields to 0. -/
theorem C6_error_conversion :
    (∀ resp : HttpResponse, resp.status ≠ 200 →
      (∃ m, slow_query resp =
        Except.ok ⟨"/slow", ClassificationResult.failure m⟩) ∧
      (∃ m, fast_query resp =
        Except.ok ⟨"/fast", ClassificationResult.failure m⟩) ∧
      (∃ m, health_check resp =
        Except.ok ⟨"/health", ClassificationResult.failure m⟩)) ∧
    (∀ (status : Nat) (f : JsonFields),
      (∃ r, slow_query ⟨status, Body.json f⟩ = Except.ok r) ∧
      (∃ r, fast_query ⟨status, Body.json f⟩ = Except.ok r) ∧
      (∃ r, health_check ⟨status, Body.json f⟩ = Except.ok r)) ∧
    slow_query ⟨200, Body.malformed⟩ = Except.error "JSONDecodeError" := by
  refine ⟨?_, ?_, rfl⟩
  · intro resp h
    rcases resp with ⟨status, body⟩
    simp only at h
    by_cases h0 : status = 0
    · subst h0
      exact ⟨⟨"Connection timeout - pool exhausted",
          by simp [slow_query, classifySlow, exceptMap_ok]⟩,
        ⟨"HTTP " ++ toString (0 : Nat),
          by simp [fast_query, classifyFast, exceptMap_ok]⟩,
        ⟨"Health check failed - system may be down",
          by simp [health_check, classifyHealth, exceptMap_ok]⟩⟩
    · exact ⟨⟨"HTTP " ++ toString status,
          by simp [slow_query, classifySlow, h, h0, exceptMap_ok]⟩,
        ⟨"HTTP " ++ toString status,
          by simp [fast_query, classifyFast, h, exceptMap_ok]⟩,
        ⟨"Health check failed - system may be down",
          by simp [health_check, classifyHealth, h, exceptMap_ok]⟩⟩
  · intro status f
    by_cases hs : status = 200
    · subst hs
      obtain ⟨c1, hc1⟩ := classifySlow_total 200 f.queryTimeMs
      obtain ⟨c2, hc2⟩ := classifyFast_total 200 f.queryTimeMs
      obtain ⟨c3, hc3⟩ := classifyHealth_total 200 f.responseTimeMs
      exact ⟨⟨⟨"/slow", c1⟩, by simp [slow_query, decodeBody, hc1, exceptMap_ok]⟩,
        ⟨⟨"/fast", c2⟩, by simp [fast_query, decodeBody, hc2, exceptMap_ok]⟩,
        ⟨⟨"/health", c3⟩,
          by simp [health_check, decodeBody, hc3, exceptMap_ok]⟩⟩
    · obtain ⟨c1, hc1⟩ := classifySlow_total status none
      obtain ⟨c2, hc2⟩ := classifyFast_total status none
      obtain ⟨c3, hc3⟩ := classifyHealth_total status none
      exact ⟨⟨⟨"/slow", c1⟩, by simp [slow_query, hs, hc1, exceptMap_ok]⟩,
        ⟨⟨"/fast", c2⟩, by simp [fast_query, hs, hc2, exceptMap_ok]⟩,
        ⟨⟨"/health", c3⟩, by simp [health_check, hs, hc3, exceptMap_ok]⟩⟩

theorem C6_error_conversion_witness :
    (∃ m, slow_query ⟨0, Body.malformed⟩ =
      Except.ok ⟨"/slow", ClassificationResult.failure m⟩) ∧
    (∃ m, fast_query ⟨0, Body.malformed⟩ =
      Except.ok ⟨"/fast", ClassificationResult.failure m⟩) ∧
    (∃ m, health_check ⟨0, Body.malformed⟩ =
      Except.ok ⟨"/health", ClassificationResult.failure m⟩) :=
  C6_error_conversion.1 ⟨0, Body.malformed⟩ (by decide)

/-- C7 as stated is false: the mixed profile's two tasks are plain requests
with no catch-response block, so they do not delegate to the Response
Classifier (they do carry the "(mixed)" display names). -/
theorem C7_counterexample :
    registry.get? 2 = some MixedUser ∧
    (MixedUser.tasks.map fun t => t.classify.isNone) = [true, true] ∧
    (MixedUser.tasks.map fun t => t.displayName) =
      ["/slow (mixed)", "/fast (mixed)"] :=
  ⟨rfl, rfl, rfl⟩

/-- C7 amended: the three single-purpose profiles' task bodies delegate to
the Response Classifier and report its verdict under their display names
(and on a well-formed response the body's report is exactly the classifier
verdict tagged with the display name); the mixed profile's tasks instead
issue plain requests under the "(mixed)" display names and leave the verdict
to the engine's status-based default. -/
theorem C7_task_reporting :
    (∀ t ∈ SlowQueryUser.tasks,
      t.displayName = "/slow" ∧ t.classify = some slow_query) ∧
    (∀ t ∈ FastQueryUser.tasks,
      t.displayName = "/fast" ∧ t.classify = some fast_query) ∧
    (∀ t ∈ HealthCheckUser.tasks,
      t.displayName = "/health" ∧ t.classify = some health_check) ∧
    (∀ t ∈ MixedUser.tasks, t.classify = none) ∧
    (∀ (status : Nat) (f : JsonFields),
      slow_query ⟨status, Body.json f⟩ =
        (classifySlow status f.queryTimeMs).map
          (fun c => TaskReport.mk "/slow" c) ∧
      fast_query ⟨status, Body.json f⟩ =
        (classifyFast status f.queryTimeMs).map
          (fun c => TaskReport.mk "/fast" c) ∧
      health_check ⟨status, Body.json f⟩ =
        (classifyHealth status f.responseTimeMs).map
          (fun c => TaskReport.mk "/health" c)) := by
  refine ⟨?_, ?_, ?_, ?_, ?_⟩
  · intro t ht
    simp only [SlowQueryUser, List.mem_singleton] at ht
    subst ht; exact ⟨rfl, rfl⟩
  · intro t ht
    simp only [FastQueryUser, List.mem_singleton] at ht
    subst ht; exact ⟨rfl, rfl⟩
  · intro t ht
    simp only [HealthCheckUser, List.mem_singleton] at ht
    subst ht; exact ⟨rfl, rfl⟩
  · intro t ht
    simp only [MixedUser, List.mem_cons, List.mem_singleton,
      List.not_mem_nil, or_false] at ht
    rcases ht with ht | ht <;> subst ht <;> rfl
  · intro status f
    by_cases hs : status = 200
    · subst hs; exact ⟨rfl, rfl, rfl⟩
    · refine ⟨?_, ?_, ?_⟩ <;>
        simp [slow_query, fast_query, health_check,
          classifySlow, classifyFast, classifyHealth, hs]

theorem C7_task_reporting_witness :
    (⟨1, "/api/distribution-groups/slow", "/slow",
        some slow_query⟩ : TaskSpec).displayName = "/slow" ∧
    (⟨1, "/api/distribution-groups/slow", "/slow",
        some slow_query⟩ : TaskSpec).classify = some slow_query :=
  C7_task_reporting.1 _ (List.mem_cons_self _ _)

/-- C8 as stated is false on the population share: a default run spawns
all seven HttpUser classes, so the registry's weight vector is
1, 1, 3, 1, 1, 1, 1 summing to 9 and the mixed profile's share of the
population is 3/9 = 1/3, not 3/6 = 0.5. -/
theorem C8_counterexample :
    registry.map UserProfile.weight = [1, 1, 3, 1, 1, 1, 1] ∧
    (registry.map UserProfile.weight).sum = 9 ∧
    ((MixedUser.weight : Rat) /
      ((registry.map UserProfile.weight).sum : Rat) = 1 / 3) ∧
    ¬ ((MixedUser.weight : Rat) /
      ((registry.map UserProfile.weight).sum : Rat) = 1 / 2) := by
  have hw : MixedUser.weight = 3 := rfl
  have hr : (registry.map UserProfile.weight).sum = 9 := rfl
  refine ⟨rfl, hr, ?_, ?_⟩
  · rw [hw, hr]; norm_num
  · rw [hw, hr]; norm_num

/-- C8 amended: the registry's four named profiles carry population weights
1, 1, 3, 1, so the mixed profile is three times as likely to be
instantiated as each single-purpose named profile, but over the full
default population (the three Scenario classes included, at default weight
1 each) its share is 3/9 = 1/3; its task weight table is slow 2, fast 8,
under which the cumulative-draw selection picks the slow task for 2 of the
10 equally likely draws and the fast task for 8, a slow probability of
1/5, a fast probability of 4/5, and a 1:4 slow-to-fast ratio. -/
theorem C8_weights :
    registry.map UserProfile.weight = [1, 1, 3, 1, 1, 1, 1] ∧
    MixedUser.weight = 3 * SlowQueryUser.weight ∧
    MixedUser.weight = 3 * FastQueryUser.weight ∧
    MixedUser.weight = 3 * HealthCheckUser.weight ∧
    ((MixedUser.weight : Rat) /
      ((registry.map UserProfile.weight).sum : Rat) = 1 / 3) ∧
    MixedUser.tasks.map TaskSpec.taskWeight = [2, 8] ∧
    (MixedUser.tasks.map TaskSpec.taskWeight).sum = 10 ∧
    selectCount [2, 8] 0 = 2 ∧
    selectCount [2, 8] 1 = 8 ∧
    ((selectCount [2, 8] 0 : Rat) / ((([2, 8] : List Nat).sum : Nat) : Rat)
      = 1 / 5) ∧
    ((selectCount [2, 8] 1 : Rat) / ((([2, 8] : List Nat).sum : Nat) : Rat)
      = 4 / 5) ∧
    selectCount [2, 8] 1 = 4 * selectCount [2, 8] 0 := by
  have h0 : selectCount [2, 8] 0 = 2 := by decide
  have h1 : selectCount [2, 8] 1 = 8 := by decide
  have hsum : (([2, 8] : List Nat).sum : Nat) = 10 := by decide
  have hw : MixedUser.weight = 3 := rfl
  have hr : (registry.map UserProfile.weight).sum = 9 := rfl
  refine ⟨rfl, rfl, rfl, rfl, ?_, rfl, rfl, h0, h1, ?_, ?_, ?_⟩
  · rw [hw, hr]; norm_num
  · rw [h0, hsum]; norm_num
  · rw [h1, hsum]; norm_num
  · rw [h0, h1]

/-- C9: every profile in the registry — the three Scenario classes
included, since a default run instantiates them too — satisfies the
data-model invariants: its population weight and all its task weights are
positive, its wait-time range has 0 ≤ min ≤ max, and its task list is
non-empty. -/
theorem C9_registry_invariants : ∀ p ∈ registry, profileWF p := by
  intro p hp
  simp only [registry, List.mem_cons, List.not_mem_nil, or_false] at hp
  unfold profileWF
  rcases hp with h | h | h | h | h | h | h <;> subst h <;>
    refine ⟨by norm_num [SlowQueryUser, FastQueryUser, MixedUser,
        HealthCheckUser, ScenarioSlowOnly, ScenarioFastOnly, ScenarioMixed],
      ?_,
      by norm_num [SlowQueryUser, FastQueryUser, MixedUser, HealthCheckUser,
        ScenarioSlowOnly, ScenarioFastOnly, ScenarioMixed],
      by norm_num [SlowQueryUser, FastQueryUser, MixedUser, HealthCheckUser,
        ScenarioSlowOnly, ScenarioFastOnly, ScenarioMixed],
      by simp [SlowQueryUser, FastQueryUser, MixedUser, HealthCheckUser,
        ScenarioSlowOnly, ScenarioFastOnly, ScenarioMixed]⟩ <;>
    intro t ht <;>
    simp only [SlowQueryUser, FastQueryUser, MixedUser, HealthCheckUser,
      ScenarioSlowOnly, ScenarioFastOnly, ScenarioMixed,
      List.mem_cons, List.mem_singleton, List.not_mem_nil, or_false] at ht
  · subst ht; norm_num
  · subst ht; norm_num
  · rcases ht with ht | ht <;> subst ht <;> norm_num
  · subst ht; norm_num
  · subst ht; norm_num
  · subst ht; norm_num
  · rcases ht with ht | ht <;> subst ht <;> norm_num

theorem C9_registry_invariants_witness : profileWF MixedUser :=
  C9_registry_invariants MixedUser
    (List.mem_cons_of_mem _ (List.mem_cons_of_mem _ (List.mem_cons_self _ _)))
